import Mathlib

/-!
Verification of the clawdbot image-generation scripts.

Shallow embedding of the parts of the three Python scripts
(`skills/openai-image-gen/scripts/{generate,common}.py`,
`skills/grok-imagine/scripts/generate.py`,
`skills/hy3-image/scripts/hy3_image.py`) that the specification talks
about: filesystem-operation traces for artifact and sidecar persistence,
the retry/backoff request loops, the container sniffer, the remote
acknowledgement check of the hy3 script, the stdout contract and
parameter validation.
-/

/-! ## Filesystem operation traces (artifact persistence)

Each script persists its artifact through a short sequence of filesystem
operations.  We record them as a trace; `write` is a non-atomic content
write (a reader can observe a partially written file at that path while
it is in progress), `rename` is the atomic promotion, `mkdir` creates
the parent directory. -/

inductive FsOp where
  | mkdir (p : String)
  | write (p : String)
  | rename (src dst : String)
deriving DecidableEq, Repr

/-- Does the operation make content appear at path `d`? A `write` touches
its own path (partially, while in progress); a `rename` touches its
destination (atomically); `mkdir` touches no file path. -/
def touchesDest : FsOp → String → Bool
  | FsOp.mkdir _, _ => false
  | FsOp.write p, d => p = d
  | FsOp.rename _ dst, d => dst = d

/-- Is the operation an atomic rename onto `d`? -/
def isRenameOnto : FsOp → String → Bool
  | FsOp.rename _ dst, d => dst = d
  | _, _ => false

/-- Atomic delivery at destination `d`: every operation of the trace that
makes content appear at `d` is an atomic rename onto `d`, so no partially
written file is ever visible at `d`. -/
def atomicDelivery (tr : List FsOp) (d : String) : Prop :=
  ∀ op ∈ tr, touchesDest op d = true → isRenameOnto op d = true

/-- Directory part of a path: everything up to and including the last
slash (models `Path.parent` far enough for `mkdir(parents=True)`). -/
def dirPart (p : String) : String :=
  let rname := p.data.reverse.takeWhile (fun c => c ≠ '/')
  String.mk (p.data.take (p.data.length - rname.length))

/-- openai-image-gen `generate.py`, `main`, lines 296-303: after decoding,
`output.parent.mkdir(parents=True, exist_ok=True)`, then
`tmp_path = output.with_name(output.name + ".tmp")`,
`tmp_path.write_bytes(img_data)`, `tmp_path.rename(output)`.
`with_name(name + ".tmp")` appends ".tmp" to the full path. -/
def openaiPersistTrace (dest : String) : List FsOp :=
  [FsOp.mkdir (dirPart dest),
   FsOp.write (dest ++ ".tmp"),
   FsOp.rename (dest ++ ".tmp") dest]

/-- grok-imagine `generate.py`, `main` lines 259-270 with `_download`
(lines 113-133): `output.parent.mkdir(...)`,
`tmp_path = output.with_name(output.name + ".tmp")`, then `_download`
writes the downloaded bytes to `tmp_path` (once per download attempt that
reaches `dest.write_bytes`, hence `attempts` writes), and finally
`tmp_path.rename(output)`. -/
def grokPersistTrace (dest : String) (attempts : Nat) : List FsOp :=
  FsOp.mkdir (dirPart dest) ::
    (List.replicate attempts (FsOp.write (dest ++ ".tmp")) ++
      [FsOp.rename (dest ++ ".tmp") dest])

/-- hy3-image `hy3_image.py`, `_scp_from` lines 65-78:
`local_path.parent.mkdir(parents=True, exist_ok=True)`, then `scp`
copies the remote file directly to `str(local_path)` - the final
destination path itself, with no temporary file and no rename. -/
def hy3ScpFromTrace (dest : String) : List FsOp :=
  [FsOp.mkdir (dirPart dest),
   FsOp.write dest]

theorem append_tmp_ne (s : String) : s ++ ".tmp" ≠ s := by
  intro h
  have hl := congrArg String.length h
  rw [String.length_append] at hl
  have h4 : (".tmp" : String).length = 4 := rfl
  rw [h4] at hl
  omega

/-- Claim C1 counterexample: in the hy3 script the artifact is copied by
`scp` directly to the final destination path, so the trace contains a
non-atomic `write` of the destination itself and atomic delivery fails.
This refutes the claim that in every script the destination only ever
appears through an atomic rename. -/
theorem c1_atomic_delivery_counterexample :
    FsOp.write "/abs/out.png" ∈ hy3ScpFromTrace "/abs/out.png" ∧
      ¬ atomicDelivery (hy3ScpFromTrace "/abs/out.png") "/abs/out.png" := by
  constructor
  · simp [hy3ScpFromTrace]
  · intro h
    have hmem : FsOp.write "/abs/out.png" ∈ hy3ScpFromTrace "/abs/out.png" := by
      simp [hy3ScpFromTrace]
    have := h (FsOp.write "/abs/out.png") hmem (by decide)
    simp [isRenameOnto] at this

/-- Claim C1 (amended): the OpenAI and Grok scripts write the artifact to
`destination + ".tmp"` and only an atomic rename makes it appear at the
destination - on every run, including every failure path (every trace
truncation), no operation other than the rename touches the destination.
The hy3 script instead copies the artifact by `scp` directly to the
destination path, with no temporary file and no rename. -/
theorem c1_atomic_delivery_amended :
    ∀ (dest : String) (attempts k : Nat),
      atomicDelivery ((openaiPersistTrace dest).take k) dest ∧
      atomicDelivery ((grokPersistTrace dest attempts).take k) dest ∧
      FsOp.write dest ∈ hy3ScpFromTrace dest := by
  intro dest attempts k
  refine ⟨?_, ?_, ?_⟩
  · intro op hop htouch
    have hop' : op ∈ openaiPersistTrace dest := List.mem_of_mem_take hop
    simp only [openaiPersistTrace, List.mem_cons, List.mem_singleton,
      List.not_mem_nil, or_false] at hop'
    rcases hop' with h | h | h
    · subst h; simp [touchesDest] at htouch
    · subst h
      simp only [touchesDest, decide_eq_true_eq] at htouch
      exact absurd htouch (append_tmp_ne dest)
    · subst h; simp [isRenameOnto]
  · intro op hop htouch
    have hop' : op ∈ grokPersistTrace dest attempts := List.mem_of_mem_take hop
    simp only [grokPersistTrace, List.mem_cons, List.mem_append,
      List.mem_replicate, List.mem_singleton, List.not_mem_nil,
      or_false] at hop'
    rcases hop' with h | ⟨_, h⟩ | h
    · subst h; simp [touchesDest] at htouch
    · subst h
      simp only [touchesDest, decide_eq_true_eq] at htouch
      exact absurd htouch (append_tmp_ne dest)
    · subst h; simp [isRenameOnto]
  · simp [hy3ScpFromTrace]

/-- Witness for C1 (amended) at a concrete destination and trace cut. -/
theorem c1_atomic_delivery_witness :
    FsOp.write "/w/img.png" ∈ hy3ScpFromTrace "/w/img.png" :=
  (c1_atomic_delivery_amended "/w/img.png" 1 3).2.2

/-! ## JSON values and Python truthiness

A minimal model of parsed JSON documents (`json.loads` results) and of
Python truthiness, used for response payloads and for the hy3
acknowledgement check.  Numbers are modelled as integers. -/

inductive Json where
  | null
  | bool (b : Bool)
  | num (n : Int)
  | str (s : String)
  | arr (elems : List Json)
  | obj (fields : List (String × Json))

/-- Truthiness of a Python value decoded from JSON: `None`, `False`, `0`,
empty string, empty list and empty dict are falsy, everything else is
truthy. -/
def pyTruthy : Json → Bool
  | Json.null => false
  | Json.bool b => b
  | Json.num n => n != 0
  | Json.str s => s != ""
  | Json.arr l => !l.isEmpty
  | Json.obj l => !l.isEmpty

/-! ## Resilient transport (retry loop with exponential backoff)

`common.py` `api_request` (lines 172-228) and grok-imagine
`_api_generate` (lines 67-110) run the same loop:
`for attempt in range(1 + retries)`, sleeping `backoff ** attempt`
seconds before every attempt with `attempt > 0`, performing the POST,
returning the parsed JSON on success, retrying on `URLError`/`OSError`
and on HTTP status codes in `{429, 500, 502, 503, 504}`, and calling
`sys.exit(2)` on any other HTTP error status; after the loop exhausts,
`sys.exit(2)`.  `api_request` additionally exits with status 2 as soon
as a 400 response carries an error body whose code is
`content_policy_violation`; `_api_generate` has no such check.  The two
are embedded as one loop parameterized by that single difference.

An attempt outcome abstracts one `urllib.request.urlopen` call:
`success resp` is a 2xx answer whose body parses to `resp`;
`httpError code cp` is a raised `HTTPError` with that status code, `cp`
recording whether the body is a content-policy-violation error document;
`netError` is a raised `URLError`/`OSError`. -/

inductive Outcome where
  | success (resp : Json)
  | httpError (code : Nat) (contentPolicy : Bool)
  | netError

/-- Result of the whole call: either the parsed response is returned, or
the process has exited with the given status. -/
inductive ApiResult where
  | ok (resp : Json)
  | exit (code : Nat)

/-- One run of the request loop: how many attempts were performed, the
sequence of sleep durations (seconds, in order), and the result. -/
structure RunResult where
  attempts : Nat
  sleeps : List ℚ
  result : ApiResult

/-- `_RETRYABLE_CODES = {429, 500, 502, 503, 504}` (common.py line 169,
grok generate.py line 64). -/
def retryableCode (c : Nat) : Bool :=
  c == 429 || c == 500 || c == 502 || c == 503 || c == 504

/-- The shared request loop, structurally recursive on the number of
remaining loop iterations (`remaining` starts at `1 + retries`).
`checkPolicy` selects the `api_request` variant with the
content-policy-violation special case. -/
def requestLoopGo (checkPolicy : Bool) (transport : Nat → Outcome) (backoff : ℚ) :
    Nat → Nat → RunResult
  | _, 0 => ⟨0, [], ApiResult.exit 2⟩
  | attempt, remaining + 1 =>
    let sl : List ℚ := if attempt = 0 then [] else [backoff ^ attempt]
    match transport attempt with
    | Outcome.success r => ⟨1, sl, ApiResult.ok r⟩
    | Outcome.httpError code cp =>
      if checkPolicy && (code == 400 && cp) then
        ⟨1, sl, ApiResult.exit 2⟩
      else if retryableCode code then
        let rest := requestLoopGo checkPolicy transport backoff (attempt + 1) remaining
        ⟨1 + rest.attempts, sl ++ rest.sleeps, rest.result⟩
      else
        ⟨1, sl, ApiResult.exit 2⟩
    | Outcome.netError =>
      let rest := requestLoopGo checkPolicy transport backoff (attempt + 1) remaining
      ⟨1 + rest.attempts, sl ++ rest.sleeps, rest.result⟩

/-- `common.api_request` with the given transport, retry count and
backoff base. -/
def api_request (transport : Nat → Outcome) (retries : Nat) (backoff : ℚ) : RunResult :=
  requestLoopGo true transport backoff 0 (1 + retries)

/-- grok-imagine `_api_generate` with the given transport, retry count
and backoff base. -/
def grokApiGenerate (transport : Nat → Outcome) (retries : Nat) (backoff : ℚ) : RunResult :=
  requestLoopGo false transport backoff 0 (1 + retries)

/-- Outcomes on which the loop continues to the next attempt (in both
variants): transport-layer errors, and HTTP errors with a status in the
retryable set.  400 is not retryable, so the content-policy case never
overlaps with this predicate. -/
def retriesOn : Outcome → Bool
  | Outcome.success _ => false
  | Outcome.netError => true
  | Outcome.httpError c _ => retryableCode c

theorem requestLoopGo_attempts_le (cp : Bool) (t : Nat → Outcome) (b : ℚ) :
    ∀ (rem a : Nat), (requestLoopGo cp t b a rem).attempts ≤ rem := by
  intro rem
  induction rem with
  | zero => intro a; simp [requestLoopGo]
  | succ n ih =>
    intro a
    have hrest := ih (a + 1)
    cases ht : t a with
    | success r => simp [requestLoopGo, ht]
    | httpError code pol =>
      by_cases h1 : (cp && (code == 400 && pol)) = true
      · simp [requestLoopGo, ht, h1]
      · by_cases h2 : retryableCode code = true
        · simp only [requestLoopGo, ht, h1, h2, Bool.false_eq_true, if_false, if_true]
          omega
        · simp [requestLoopGo, ht, h1, h2]
    | netError =>
      simp only [requestLoopGo, ht]
      omega

theorem requestLoopGo_sleeps_pos (cp : Bool) (t : Nat → Outcome) (b : ℚ) :
    ∀ (rem a : Nat), 1 ≤ a →
      (requestLoopGo cp t b a rem).sleeps =
        (List.range' a (requestLoopGo cp t b a rem).attempts).map (fun n => b ^ n) := by
  intro rem
  induction rem with
  | zero => intro a _; simp [requestLoopGo]
  | succ n ih =>
    intro a ha
    have ha0 : ¬ a = 0 := by omega
    have hrest := ih (a + 1) (by omega)
    have hr : ∀ m : Nat, List.range' a (1 + m) = a :: List.range' (a + 1) m := by
      intro m
      rw [Nat.add_comm 1 m]
      exact List.range'_succ a m 1
    cases ht : t a with
    | success r => simp [requestLoopGo, ht, ha0, List.range'_succ]
    | httpError code pol =>
      by_cases h1 : (cp && (code == 400 && pol)) = true
      · simp [requestLoopGo, ht, ha0, h1, List.range'_succ]
      · by_cases h2 : retryableCode code = true
        · simp only [requestLoopGo, ht, ha0, h1, h2, Bool.false_eq_true, if_false, if_true]
          simp [hrest, hr]
        · simp [requestLoopGo, ht, ha0, h1, h2, List.range'_succ]
    | netError =>
      simp only [requestLoopGo, ht, ha0, if_false]
      simp [hrest, hr]

theorem requestLoop_sleeps_schedule (cp : Bool) (t : Nat → Outcome) (b : ℚ) (R : Nat) :
    (requestLoopGo cp t b 0 (1 + R)).sleeps =
      (List.range' 1 ((requestLoopGo cp t b 0 (1 + R)).attempts - 1)).map
        (fun n => b ^ n) := by
  have h1R : 1 + R = R + 1 := Nat.add_comm 1 R
  rw [h1R]
  have hrest := requestLoopGo_sleeps_pos cp t b R 1 (by omega)
  cases ht : t 0 with
  | success r => simp [requestLoopGo, ht]
  | httpError code pol =>
    by_cases h1 : (cp && (code == 400 && pol)) = true
    · simp [requestLoopGo, ht, h1]
    · by_cases h2 : retryableCode code = true
      · simp only [requestLoopGo, ht, h1, h2, Bool.false_eq_true, if_false,
          if_true, if_pos rfl]
        simp [hrest]
      · simp [requestLoopGo, ht, h1, h2]
  | netError =>
    simp only [requestLoopGo, ht, if_pos rfl]
    simp [hrest]

theorem requestLoopGo_success (cp : Bool) (t : Nat → Outcome) (b : ℚ) (r : Json) :
    ∀ (N a rem : Nat), N < rem →
      (∀ k, k < N → retriesOn (t (a + k)) = true) →
      t (a + N) = Outcome.success r →
      (requestLoopGo cp t b a rem).result = ApiResult.ok r ∧
        (requestLoopGo cp t b a rem).attempts = N + 1 := by
  intro N
  induction N with
  | zero =>
    intro a rem hrem hret hsucc
    cases rem with
    | zero => omega
    | succ m =>
      rw [Nat.add_zero] at hsucc
      simp [requestLoopGo, hsucc]
  | succ N ih =>
    intro a rem hrem hret hsucc
    cases rem with
    | zero => omega
    | succ m =>
      have h0 : retriesOn (t a) = true := by
        have := hret 0 (by omega)
        rw [Nat.add_zero] at this
        exact this
      have hstep : ∀ k, k < N → retriesOn (t (a + 1 + k)) = true := by
        intro k hk
        have := hret (k + 1) (by omega)
        have hs : a + (k + 1) = a + 1 + k := by omega
        rw [hs] at this
        exact this
      have hsucc' : t (a + 1 + N) = Outcome.success r := by
        have hs : a + 1 + N = a + (N + 1) := by omega
        rw [hs]
        exact hsucc
      have hrec := ih (a + 1) m (by omega) hstep hsucc'
      cases ht : t a with
      | success r' => rw [ht] at h0; simp [retriesOn] at h0
      | httpError code pol =>
        rw [ht] at h0
        have hcode : retryableCode code = true := h0
        have hc400 : (code == 400) = false := by
          cases hq : (code == 400) with
          | false => rfl
          | true =>
            have hcv : code = 400 := by simpa using hq
            rw [hcv] at hcode
            simp [retryableCode] at hcode
        have h1 : (cp && (code == 400 && pol)) = false := by
          simp [hc400]
        simp only [requestLoopGo, ht, h1, hcode, Bool.false_eq_true, if_false,
          if_true]
        exact ⟨hrec.1, by omega⟩
      | netError =>
        simp only [requestLoopGo, ht]
        exact ⟨hrec.1, by omega⟩

/-- A transport that fails with the retryable status 429 on its first two
attempts and succeeds on the third, used to refute the unconditional
strict growth of sleep durations. -/
def transport429 : Nat → Outcome :=
  fun k => if k < 2 then Outcome.httpError 429 false else Outcome.success (Json.obj [])

/-- Claim C2 counterexample: with backoff base 1 (a value the
`--retry-backoff` option accepts), a transport that fails with a
retryable code twice and then succeeds makes the configured number of
attempts and returns the success response, but the sleep durations are
`[1, 1]` - not strictly increasing.  This refutes the claim that for
every configured backoff base the sleeps strictly increase. -/
theorem c2_retry_schedule_counterexample :
    (∀ k, k < 2 → retriesOn (transport429 k) = true) ∧
      transport429 2 = Outcome.success (Json.obj []) ∧
      (api_request transport429 2 1).result = ApiResult.ok (Json.obj []) ∧
      (api_request transport429 2 1).attempts = 3 ∧
      (api_request transport429 2 1).sleeps = [1, 1] ∧
      ¬ (api_request transport429 2 1).sleeps.Pairwise (· < ·) := by
  refine ⟨by decide, rfl, rfl, rfl, ?_, ?_⟩
  · show (api_request transport429 2 1).sleeps = [1, 1]
    rfl
  · intro h
    have hs : (api_request transport429 2 1).sleeps = [1, 1] := rfl
    rw [hs] at h
    have := List.rel_of_pairwise_cons h (List.mem_singleton.mpr rfl)
    exact absurd this (by norm_num)

/-- Claim C2 (amended): for every transport call configured with retry
count `R` and backoff base `b`, the request loop performs at most
`1 + R` attempts and sleeps `b ^ n` seconds before the `n`-th attempt
(`n ≥ 1`, zero-indexed); if the first `N ≤ R` attempts fail with
retryable errors and attempt `N` succeeds, the call returns the parsed
success response after exactly `N` retries - and the sleep durations
between attempts are strictly increasing provided the backoff base
exceeds 1.  Stated for both `common.api_request` and grok-imagine
`_api_generate`. -/
theorem c2_retry_schedule_amended :
    ∀ (t : Nat → Outcome) (R : Nat) (b : ℚ) (r : Json) (N : Nat),
      (api_request t R b).attempts ≤ 1 + R ∧
      (grokApiGenerate t R b).attempts ≤ 1 + R ∧
      (api_request t R b).sleeps =
        (List.range' 1 ((api_request t R b).attempts - 1)).map (fun n => b ^ n) ∧
      (grokApiGenerate t R b).sleeps =
        (List.range' 1 ((grokApiGenerate t R b).attempts - 1)).map (fun n => b ^ n) ∧
      (N ≤ R → (∀ k, k < N → retriesOn (t k) = true) →
        t N = Outcome.success r →
        (api_request t R b).result = ApiResult.ok r ∧
          (api_request t R b).attempts = N + 1 ∧
          (grokApiGenerate t R b).result = ApiResult.ok r ∧
          (grokApiGenerate t R b).attempts = N + 1 ∧
          (api_request t R b).sleeps = (List.range' 1 N).map (fun n => b ^ n) ∧
          (1 < b → (api_request t R b).sleeps.Pairwise (· < ·))) := by
  intro t R b r N
  refine ⟨requestLoopGo_attempts_le true t b (1 + R) 0,
    requestLoopGo_attempts_le false t b (1 + R) 0,
    requestLoop_sleeps_schedule true t b R,
    requestLoop_sleeps_schedule false t b R, ?_⟩
  intro hNR hret hsucc
  have hret' : ∀ k, k < N → retriesOn (t (0 + k)) = true := by
    intro k hk
    rw [Nat.zero_add]
    exact hret k hk
  have hsucc' : t (0 + N) = Outcome.success r := by
    rw [Nat.zero_add]
    exact hsucc
  have hapi := requestLoopGo_success true t b r N 0 (1 + R) (by omega) hret' hsucc'
  have hgrok := requestLoopGo_success false t b r N 0 (1 + R) (by omega) hret' hsucc'
  have hsl : (api_request t R b).sleeps = (List.range' 1 N).map (fun n => b ^ n) := by
    have := requestLoop_sleeps_schedule true t b R
    have ha : (api_request t R b).attempts = N + 1 := hapi.2
    rw [api_request] at *
    rw [this, ha]
    simp
  refine ⟨hapi.1, hapi.2, hgrok.1, hgrok.2, hsl, ?_⟩
  intro hb
  rw [hsl]
  exact List.Pairwise.map (fun n => b ^ n)
    (fun x y hxy => pow_lt_pow_right₀ hb hxy) (List.pairwise_lt_range' 1 N)

/-- Witness for C2 (amended): a transport that fails with 502 once and
then succeeds, with retry count 2 and backoff base 2. -/
theorem c2_retry_schedule_witness :
    (api_request (fun k => if k < 1 then Outcome.httpError 502 false
        else Outcome.success Json.null) 2 2).result = ApiResult.ok Json.null ∧
      (api_request (fun k => if k < 1 then Outcome.httpError 502 false
        else Outcome.success Json.null) 2 2).attempts = 2 ∧
      (api_request (fun k => if k < 1 then Outcome.httpError 502 false
        else Outcome.success Json.null) 2 2).sleeps =
        (List.range' 1 1).map (fun n => (2 : ℚ) ^ n) := by
  have h := (c2_retry_schedule_amended
    (fun k => if k < 1 then Outcome.httpError 502 false else Outcome.success Json.null)
    2 2 Json.null 1).2.2.2.2 (by omega) (by decide) (by rfl)
  exact ⟨h.1, h.2.1, h.2.2.2.2.1⟩

theorem requestLoopGo_terminal (cp : Bool) (t : Nat → Outcome) (b : ℚ)
    (code : Nat) (pol : Bool) (hcode : retryableCode code = false) :
    ∀ (N a rem : Nat), N < rem →
      (∀ k, k < N → retriesOn (t (a + k)) = true) →
      t (a + N) = Outcome.httpError code pol →
      (requestLoopGo cp t b a rem).result = ApiResult.exit 2 ∧
        (requestLoopGo cp t b a rem).attempts = N + 1 := by
  intro N
  induction N with
  | zero =>
    intro a rem hrem hret hterm
    cases rem with
    | zero => omega
    | succ m =>
      rw [Nat.add_zero] at hterm
      by_cases h1 : (cp && (code == 400 && pol)) = true
      · simp [requestLoopGo, hterm, h1]
      · simp [requestLoopGo, hterm, h1, hcode]
  | succ N ih =>
    intro a rem hrem hret hterm
    cases rem with
    | zero => omega
    | succ m =>
      have h0 : retriesOn (t a) = true := by
        have := hret 0 (by omega)
        rw [Nat.add_zero] at this
        exact this
      have hstep : ∀ k, k < N → retriesOn (t (a + 1 + k)) = true := by
        intro k hk
        have := hret (k + 1) (by omega)
        have hs : a + (k + 1) = a + 1 + k := by omega
        rw [hs] at this
        exact this
      have hterm' : t (a + 1 + N) = Outcome.httpError code pol := by
        have hs : a + 1 + N = a + (N + 1) := by omega
        rw [hs]
        exact hterm
      have hrec := ih (a + 1) m (by omega) hstep hterm'
      cases ht : t a with
      | success r => rw [ht] at h0; simp [retriesOn] at h0
      | httpError code2 pol2 =>
        rw [ht] at h0
        have hcode2 : retryableCode code2 = true := h0
        have hc400 : (code2 == 400) = false := by
          cases hq : (code2 == 400) with
          | false => rfl
          | true =>
            have hcv : code2 = 400 := by simpa using hq
            rw [hcv] at hcode2
            simp [retryableCode] at hcode2
        have h1 : (cp && (code2 == 400 && pol2)) = false := by
          simp [hc400]
        simp only [requestLoopGo, ht, h1, hcode2, Bool.false_eq_true, if_false,
          if_true]
        exact ⟨hrec.1, by omega⟩
      | netError =>
        simp only [requestLoopGo, ht]
        exact ⟨hrec.1, by omega⟩

/-- Claim C3: whenever any attempt of the request loop - the first, or
one reached after any number of retryable failures - raises an HTTP
error whose status is not in the retryable set
`{429, 500, 502, 503, 504}` (an `HTTPError` is only raised for non-2xx
responses), both `common.api_request` and grok-imagine `_api_generate`
terminate the process immediately with exit status 2 and perform no
further network attempt: the run consists of exactly the attempts up to
and including the terminal one.  In particular, a transport whose first
attempt fails with such a terminal code makes exactly one call, with no
sleeps.  The content-policy special case of `api_request` (a 400 whose
body is a content-policy violation) equally exits with status 2 at the
attempt that receives it. -/
theorem c3_terminal_single_attempt :
    ∀ (t : Nat → Outcome) (R : Nat) (b : ℚ) (N code : Nat) (pol : Bool),
      retryableCode code = false →
      N ≤ R →
      (∀ k, k < N → retriesOn (t k) = true) →
      t N = Outcome.httpError code pol →
      ((api_request t R b).result = ApiResult.exit 2 ∧
        (api_request t R b).attempts = N + 1 ∧
        (grokApiGenerate t R b).result = ApiResult.exit 2 ∧
        (grokApiGenerate t R b).attempts = N + 1) ∧
      (N = 0 → api_request t R b = ⟨1, [], ApiResult.exit 2⟩ ∧
        grokApiGenerate t R b = ⟨1, [], ApiResult.exit 2⟩) := by
  intro t R b N code pol hcode hNR hret hterm
  have hret0 : ∀ k, k < N → retriesOn (t (0 + k)) = true := by
    intro k hk
    rw [Nat.zero_add]
    exact hret k hk
  have hterm0 : t (0 + N) = Outcome.httpError code pol := by
    rw [Nat.zero_add]
    exact hterm
  have hapi := requestLoopGo_terminal true t b code pol hcode N 0 (1 + R)
    (by omega) hret0 hterm0
  have hgrok := requestLoopGo_terminal false t b code pol hcode N 0 (1 + R)
    (by omega) hret0 hterm0
  refine ⟨⟨hapi.1, hapi.2, hgrok.1, hgrok.2⟩, ?_⟩
  intro hN0
  subst hN0
  have hsl1 : (requestLoopGo true t b 0 (1 + R)).sleeps = [] := by
    have hs := requestLoop_sleeps_schedule true t b R
    rw [hs, hapi.2]
    exact rfl
  have hsl2 : (requestLoopGo false t b 0 (1 + R)).sleeps = [] := by
    have hs := requestLoop_sleeps_schedule false t b R
    rw [hs, hgrok.2]
    exact rfl
  constructor
  · show requestLoopGo true t b 0 (1 + R) = ⟨1, [], ApiResult.exit 2⟩
    have heta : requestLoopGo true t b 0 (1 + R) =
        ⟨(requestLoopGo true t b 0 (1 + R)).attempts,
          (requestLoopGo true t b 0 (1 + R)).sleeps,
          (requestLoopGo true t b 0 (1 + R)).result⟩ := rfl
    rw [heta, hapi.1, hapi.2, hsl1]
  · show requestLoopGo false t b 0 (1 + R) = ⟨1, [], ApiResult.exit 2⟩
    have heta : requestLoopGo false t b 0 (1 + R) =
        ⟨(requestLoopGo false t b 0 (1 + R)).attempts,
          (requestLoopGo false t b 0 (1 + R)).sleeps,
          (requestLoopGo false t b 0 (1 + R)).result⟩ := rfl
    rw [heta, hgrok.1, hgrok.2, hsl2]

/-- Witness for C3: a transport that fails with retryable 500 once and
then with terminal 403 (two attempts, exit 2), and one whose first
attempt fails with 403 (exactly one call). -/
theorem c3_terminal_single_attempt_witness :
    (api_request (fun k => if k < 1 then Outcome.httpError 500 false
        else Outcome.httpError 403 false) 2 2).result = ApiResult.exit 2 ∧
      (api_request (fun k => if k < 1 then Outcome.httpError 500 false
        else Outcome.httpError 403 false) 2 2).attempts = 2 ∧
      api_request (fun _ => Outcome.httpError 403 false) 2 2 =
        ⟨1, [], ApiResult.exit 2⟩ ∧
      grokApiGenerate (fun _ => Outcome.httpError 403 false) 2 2 =
        ⟨1, [], ApiResult.exit 2⟩ := by
  have h1 := c3_terminal_single_attempt
    (fun k => if k < 1 then Outcome.httpError 500 false
      else Outcome.httpError 403 false)
    2 2 1 403 false (by decide) (by omega) (by decide) (by rfl)
  have h2 := c3_terminal_single_attempt (fun _ => Outcome.httpError 403 false)
    2 2 0 403 false (by decide) (by omega)
    (fun k hk => absurd hk (Nat.not_lt_zero k)) rfl
  exact ⟨h1.1.1, h1.1.2.1, (h2.2 rfl).1, (h2.2 rfl).2⟩

/-! ## hy3 remote acknowledgement check

`hy3_image.py` `_call_generate`, lines 171-180: after the remote curl,
the script runs
`j = json.loads((r.stdout or "{}").strip() or "{}")` inside a
`try/except` that sets `j = {}` on any parse failure, and then
`if isinstance(j, dict) and not j.get("ok", False): raise SystemExit(f"HY3 error: ...")`.
In Python, `raise SystemExit(msg)` with a string argument prints the
message to stderr and terminates the process with exit status 1. -/

/-- The remote response body, as the script classifies it: empty (or
whitespace-only) stdout, a body `json.loads` fails to parse, or a body
that parses to the given JSON value. -/
inductive RemoteBody where
  | empty
  | unparseable
  | parsed (j : Json)

/-- The value bound to `j` in `_call_generate`: an empty body is
defaulted to the string `"{}"` (which parses to the empty object) and a
parse failure is replaced by `{}` in the `except` branch. -/
def hy3ResponseJson : RemoteBody → Json
  | RemoteBody.empty => Json.obj []
  | RemoteBody.unparseable => Json.obj []
  | RemoteBody.parsed j => j

/-- Python `dict.get key default` over the fields of a decoded JSON
object; on duplicate keys `json.loads` keeps the last occurrence. -/
def pyDictGet (fields : List (String × Json)) (k : String) (dflt : Json) : Json :=
  match fields.reverse.find? (fun p => p.1 == k) with
  | some p => p.2
  | none => dflt

/-- Result of `_call_generate` so far as the acknowledgement check is
concerned: either control continues past the check, or the process has
exited with the given status. -/
inductive Hy3Result where
  | ok
  | exit (code : Nat)
deriving DecidableEq

/-- The acknowledgement check of `_call_generate`: exit (via
`SystemExit` with a string message, hence status 1) exactly when `j` is
a dict whose `"ok"` entry (default `False`) is falsy. -/
def hy3OkCheck (b : RemoteBody) : Hy3Result :=
  match hy3ResponseJson b with
  | Json.obj fields =>
    if pyTruthy (pyDictGet fields "ok" (Json.bool false)) then Hy3Result.ok
    else Hy3Result.exit 1
  | _ => Hy3Result.ok

/-- Is the decoded JSON value a JSON object (a Python dict)? -/
def isObjJson : Json → Bool
  | Json.obj _ => true
  | _ => false

/-- Claim C4 counterexample: a remote response that parses to the JSON
object with field `ok` equal to `false` does terminate the run, but via
`raise SystemExit("HY3 error: ...")` - a `SystemExit` carrying a string,
which exits the process with status 1, not with the API-error status 2
the claim states. -/
theorem c4_ok_false_counterexample :
    hy3OkCheck (RemoteBody.parsed (Json.obj [("ok", Json.bool false)])) =
        Hy3Result.exit 1 ∧
      Hy3Result.exit 1 ≠ Hy3Result.exit 2 := by
  refine ⟨rfl, ?_⟩
  decide

/-- Claim C4 (amended): in the SSH (hy3) variant, when the remote
`/generate` invocation returns a body that parses to a JSON object whose
`"ok"` entry (default false) is falsy - in particular an object with
`ok` false, and also an empty or unparseable body, both of which default
to `{}` - the run is terminal: the parsed response is interpolated into
the `SystemExit` message and the process exits with status 1 (the exit
status Python gives a `SystemExit` raised with a string argument). -/
theorem c4_ok_false_amended :
    ∀ (fields : List (String × Json)),
      pyTruthy (pyDictGet fields "ok" (Json.bool false)) = false →
      hy3OkCheck (RemoteBody.parsed (Json.obj fields)) = Hy3Result.exit 1 ∧
        hy3OkCheck RemoteBody.empty = Hy3Result.exit 1 ∧
        hy3OkCheck RemoteBody.unparseable = Hy3Result.exit 1 := by
  intro fields hfalse
  refine ⟨?_, rfl, rfl⟩
  simp [hy3OkCheck, hy3ResponseJson, hfalse]

/-- Witness for C4 (amended) at the object `{"ok": false}`. -/
theorem c4_ok_false_witness :
    hy3OkCheck (RemoteBody.parsed (Json.obj [("ok", Json.bool false)])) =
      Hy3Result.exit 1 :=
  (c4_ok_false_amended [("ok", Json.bool false)] rfl).1

/-- Claim C10: the success check of `_call_generate` rejects exactly the
responses whose decoded value is a JSON object lacking a truthy `"ok"`
field.  Every body that parses to a non-object JSON value (for example
`[]` or `3`) passes the check and is treated as success, while an empty
or unparseable body decodes to `{}` and is a terminal error (exit
status 1). -/
theorem c10_ok_check_shape :
    (∀ j : Json, isObjJson j = false →
        hy3OkCheck (RemoteBody.parsed j) = Hy3Result.ok) ∧
      (∀ b : RemoteBody, hy3OkCheck b = Hy3Result.exit 1 ↔
        ∃ fields, hy3ResponseJson b = Json.obj fields ∧
          pyTruthy (pyDictGet fields "ok" (Json.bool false)) = false) ∧
      hy3OkCheck (RemoteBody.parsed (Json.arr [])) = Hy3Result.ok ∧
      hy3OkCheck (RemoteBody.parsed (Json.num 3)) = Hy3Result.ok ∧
      hy3OkCheck RemoteBody.empty = Hy3Result.exit 1 ∧
      hy3OkCheck RemoteBody.unparseable = Hy3Result.exit 1 := by
  refine ⟨?_, ?_, rfl, rfl, rfl, rfl⟩
  · intro j hj
    cases j <;> simp_all [hy3OkCheck, hy3ResponseJson, isObjJson]
  · intro b
    constructor
    · intro h
      cases hb : hy3ResponseJson b with
      | obj fields =>
        refine ⟨fields, rfl, ?_⟩
        by_cases ht : pyTruthy (pyDictGet fields "ok" (Json.bool false)) = true
        · rw [hy3OkCheck, hb] at h
          simp [ht] at h
        · simpa using ht
      | null => rw [hy3OkCheck, hb] at h; simp at h
      | bool v => rw [hy3OkCheck, hb] at h; simp at h
      | num v => rw [hy3OkCheck, hb] at h; simp at h
      | str v => rw [hy3OkCheck, hb] at h; simp at h
      | arr v => rw [hy3OkCheck, hb] at h; simp at h
    · rintro ⟨fields, hb, hfalse⟩
      rw [hy3OkCheck, hb]
      simp [hfalse]

/-- Witness for C10 at a concrete non-object response. -/
theorem c10_ok_check_shape_witness :
    hy3OkCheck (RemoteBody.parsed (Json.str "done")) = Hy3Result.ok :=
  c10_ok_check_shape.1 (Json.str "done") rfl

/-! ## Container sniffer

openai-image-gen `generate.py` lines 33-74 and grok-imagine
`generate.py` lines 140-166.  Byte strings are modelled as `List Nat`
(one entry per byte).  `struct.unpack` raises `struct.error` when the
slice it is given is shorter than the format requires, and that
exception would propagate out of `image_dimensions`; we model a raised
exception as `Except.error ()`, so totality of the Python function is
the statement that the model never returns `Except.error`.
`int.from_bytes` never raises (a short slice just yields a smaller
number). -/

/-- `struct.unpack(">H", data[i:i+2])[0]`: big-endian 16-bit read,
raising if fewer than 2 bytes are available. -/
def pyUnpackBE2 (data : List Nat) (i : Nat) : Except Unit Nat :=
  match (data.drop i).take 2 with
  | [b0, b1] => Except.ok (b0 * 256 + b1)
  | _ => Except.error ()

/-- Python slice `data[a:b]` (for `a ≤ b`). -/
def byteSlice (data : List Nat) (a b : Nat) : List Nat :=
  (data.drop a).take (b - a)

/-- `int.from_bytes(bs, "little")`. -/
def pyIntFromBytesLE (bs : List Nat) : Nat :=
  bs.foldr (fun x acc => x + 256 * acc) 0

/-- The 8-byte PNG signature `\x89PNG\r\n\x1a\n`. -/
def pngMagic : List Nat := [137, 80, 78, 71, 13, 10, 26, 10]

/-- `_png_dimensions`: requires at least 24 bytes and the PNG magic,
then reads `struct.unpack(">II", data[16:24])` as (width, height). -/
def pngDimensions (data : List Nat) : Except Unit (Option (Nat × Nat)) :=
  if data.length < 24 ∨ data.take 8 ≠ pngMagic then Except.ok none
  else
    match (data.drop 16).take 8 with
    | [w0, w1, w2, w3, h0, h1, h2, h3] =>
      Except.ok (some (((w0 * 256 + w1) * 256 + w2) * 256 + w3,
                       ((h0 * 256 + h1) * 256 + h2) * 256 + h3))
    | _ => Except.error ()

/-- The marker-scanning loop of `_jpeg_dimensions`:
`while i < len(data) - 9`, break when `data[i] != 0xFF`, return the SOF
dimensions (`struct.unpack(">HH", data[i+5:i+9])`, height first) when
the marker is `0xC0`, `0xC1` or `0xC2`, otherwise advance by
`2 + struct.unpack(">H", data[i+2:i+4])[0]`. -/
def jpegScan (data : List Nat) (i : Nat) : Except Unit (Option (Nat × Nat)) :=
  if h : i + 9 < data.length then
    if data.getD i 0 ≠ 255 then Except.ok none
    else if data.getD (i + 1) 0 = 192 ∨ data.getD (i + 1) 0 = 193 ∨
        data.getD (i + 1) 0 = 194 then
      match (data.drop (i + 5)).take 4 with
      | [h0, h1, w0, w1] => Except.ok (some (w0 * 256 + w1, h0 * 256 + h1))
      | _ => Except.error ()
    else
      match pyUnpackBE2 data (i + 2) with
      | Except.error e => Except.error e
      | Except.ok seglen => jpegScan data (i + 2 + seglen)
  else Except.ok none
termination_by data.length - i
decreasing_by omega

/-- `_jpeg_dimensions`: requires at least 4 bytes and the SOI marker
`\xff\xd8`, then runs the scan loop from index 2. -/
def jpegDimensions (data : List Nat) : Except Unit (Option (Nat × Nat)) :=
  if data.length < 4 ∨ data.take 2 ≠ [255, 216] then Except.ok none
  else jpegScan data 2

def riffTag : List Nat := [82, 73, 70, 70]

def webpTag : List Nat := [87, 69, 66, 80]

def vp8Tag : List Nat := [86, 80, 56, 32]

def vp8lTag : List Nat := [86, 80, 56, 76]

/-- `_webp_dimensions` (openai-image-gen `generate.py` lines 56-70):
requires at least 30 bytes and the `RIFF....WEBP` container, then
dispatches on the chunk tag at offset 12: lossy `VP8 ` reads 14-bit
little-endian fields at offsets 26 and 28, lossless `VP8L` unpacks a
32-bit little-endian bitfield at offset 21; anything else is `None`. -/
def webpDimensions (data : List Nat) : Option (Nat × Nat) :=
  if data.length < 30 ∨ byteSlice data 0 4 ≠ riffTag ∨
      byteSlice data 8 12 ≠ webpTag then none
  else if byteSlice data 12 16 = vp8Tag ∧ 30 ≤ data.length then
    some (pyIntFromBytesLE (byteSlice data 26 28) &&& 0x3FFF,
          pyIntFromBytesLE (byteSlice data 28 30) &&& 0x3FFF)
  else if byteSlice data 12 16 = vp8lTag ∧ 25 ≤ data.length then
    let bits := pyIntFromBytesLE (byteSlice data 21 25)
    some ((bits &&& 0x3FFF) + 1, ((bits >>> 14) &&& 0x3FFF) + 1)
  else none

/-- `image_dimensions` of openai-image-gen:
`_png_dimensions(data) or _jpeg_dimensions(data) or _webp_dimensions(data)`,
with Python `or` taking the first non-`None` result; a raised exception
propagates. -/
def imageDimensionsOpenai (data : List Nat) : Except Unit (Option (Nat × Nat)) :=
  match pngDimensions data with
  | Except.error e => Except.error e
  | Except.ok (some r) => Except.ok (some r)
  | Except.ok none =>
    match jpegDimensions data with
    | Except.error e => Except.error e
    | Except.ok (some r) => Except.ok (some r)
    | Except.ok none => Except.ok (webpDimensions data)

/-- `image_dimensions` of grok-imagine:
`_jpeg_dimensions(data) or _png_dimensions(data)`. -/
def imageDimensionsGrok (data : List Nat) : Except Unit (Option (Nat × Nat)) :=
  match jpegDimensions data with
  | Except.error e => Except.error e
  | Except.ok (some r) => Except.ok (some r)
  | Except.ok none => pngDimensions data

/-- Did the computation finish without a raised exception? -/
def exceptIsOk : Except Unit (Option (Nat × Nat)) → Bool
  | Except.ok _ => true
  | Except.error _ => false

theorem pyUnpackBE2_isOk (data : List Nat) (i : Nat) (h : i + 2 ≤ data.length) :
    ∃ v, pyUnpackBE2 data i = Except.ok v := by
  have hlen : 2 ≤ (data.drop i).length := by
    rw [List.length_drop]
    omega
  rw [pyUnpackBE2]
  match hd : data.drop i with
  | [] => rw [hd] at hlen; simp at hlen
  | [a] => rw [hd] at hlen; simp at hlen
  | a :: b :: rest => exact ⟨a * 256 + b, rfl⟩

theorem dropTake4_shape (data : List Nat) (i : Nat) (h : i + 4 ≤ data.length) :
    ∃ b0 b1 b2 b3, (data.drop i).take 4 = [b0, b1, b2, b3] := by
  have hlen : 4 ≤ (data.drop i).length := by
    rw [List.length_drop]
    omega
  match hd : data.drop i with
  | [] => rw [hd] at hlen; simp at hlen
  | [a] => rw [hd] at hlen; simp at hlen
  | [a, b] => rw [hd] at hlen; simp at hlen
  | [a, b, c] => rw [hd] at hlen; simp at hlen
  | a :: b :: c :: d :: rest => exact ⟨a, b, c, d, rfl⟩

theorem dropTake8_shape (data : List Nat) (i : Nat) (h : i + 8 ≤ data.length) :
    ∃ b0 b1 b2 b3 b4 b5 b6 b7,
      (data.drop i).take 8 = [b0, b1, b2, b3, b4, b5, b6, b7] := by
  have hlen : 8 ≤ (data.drop i).length := by
    rw [List.length_drop]
    omega
  match hd : data.drop i with
  | [] => rw [hd] at hlen; simp at hlen
  | [a] => rw [hd] at hlen; simp at hlen
  | [a, b] => rw [hd] at hlen; simp at hlen
  | [a, b, c] => rw [hd] at hlen; simp at hlen
  | [a, b, c, d] => rw [hd] at hlen; simp at hlen
  | [a, b, c, d, e] => rw [hd] at hlen; simp at hlen
  | [a, b, c, d, e, f] => rw [hd] at hlen; simp at hlen
  | [a, b, c, d, e, f, g] => rw [hd] at hlen; simp at hlen
  | a :: b :: c :: d :: e :: f :: g :: k :: rest =>
    exact ⟨a, b, c, d, e, f, g, k, rfl⟩

theorem pngDimensions_isOk (data : List Nat) :
    exceptIsOk (pngDimensions data) = true := by
  rw [pngDimensions]
  by_cases hg : data.length < 24 ∨ data.take 8 ≠ pngMagic
  · rw [if_pos hg]; rfl
  · rw [if_neg hg]
    push_neg at hg
    obtain ⟨b0, b1, b2, b3, b4, b5, b6, b7, hsh⟩ :=
      dropTake8_shape data 16 (by omega)
    rw [hsh]
    rfl

theorem jpegScan_isOk (data : List Nat) :
    ∀ (n i : Nat), data.length - i ≤ n → exceptIsOk (jpegScan data i) = true := by
  intro n
  induction n with
  | zero =>
    intro i hn
    rw [jpegScan]
    rw [dif_neg (by omega)]
    rfl
  | succ n ih =>
    intro i hn
    rw [jpegScan]
    by_cases hg : i + 9 < data.length
    · rw [dif_pos hg]
      by_cases hff : data.getD i 0 ≠ 255
      · rw [if_pos hff]; rfl
      · rw [if_neg hff]
        by_cases hm : data.getD (i + 1) 0 = 192 ∨ data.getD (i + 1) 0 = 193 ∨
            data.getD (i + 1) 0 = 194
        · rw [if_pos hm]
          obtain ⟨b0, b1, b2, b3, hsh⟩ := dropTake4_shape data (i + 5) (by omega)
          rw [hsh]
          rfl
        · rw [if_neg hm]
          obtain ⟨v, hv⟩ := pyUnpackBE2_isOk data (i + 2) (by omega)
          rw [hv]
          exact ih (i + 2 + v) (by omega)
    · rw [dif_neg hg]
      rfl

theorem jpegDimensions_isOk (data : List Nat) :
    exceptIsOk (jpegDimensions data) = true := by
  rw [jpegDimensions]
  by_cases hg : data.length < 4 ∨ data.take 2 ≠ [255, 216]
  · rw [if_pos hg]; rfl
  · rw [if_neg hg]
    exact jpegScan_isOk data data.length 2 (by omega)

/-- Does the data begin with the PNG magic (and is long enough for the
PNG branch to engage)? -/
def hasPngSig (data : List Nat) : Bool :=
  decide (¬ (data.length < 24 ∨ data.take 8 ≠ pngMagic))

/-- Does the data begin with the JPEG SOI marker (and is long enough for
the JPEG branch to engage)? -/
def hasJpegSig (data : List Nat) : Bool :=
  decide (¬ (data.length < 4 ∨ data.take 2 ≠ [255, 216]))

/-- Does the data begin with the `RIFF....WEBP` container (and is long
enough for the WebP branch to engage)? -/
def hasWebpSig (data : List Nat) : Bool :=
  decide (¬ (data.length < 30 ∨ byteSlice data 0 4 ≠ riffTag ∨
    byteSlice data 8 12 ≠ webpTag))

/-- The 8-byte PNG magic followed by 16 bytes that are not a valid PNG
chunk layout: a real PNG has the 4-byte `IHDR` chunk type at offsets
12-15, this data has garbage there; it is just long enough (24 bytes)
for the PNG branch to engage. -/
def pngGarbage : List Nat :=
  pngMagic ++ [9, 9, 9, 9, 9, 9, 9, 9, 0, 0, 0, 1, 0, 0, 0, 2]

/-- Claim C7 counterexample: malformed data whose signature does match
is not mapped to `None`: the PNG magic followed by garbage (no `IHDR`
chunk type at offsets 12-15) makes both `image_dimensions` variants
return the garbage pair `(1, 2)` read blindly from offsets 16-23.
This refutes the part of the claim that promises `None` for malformed
data; the sniffer only guarantees `None` when no signature matches. -/
theorem c7_sniffer_counterexample :
    pngGarbage.take 8 = pngMagic ∧
      byteSlice pngGarbage 12 16 ≠ [73, 72, 68, 82] ∧
      imageDimensionsOpenai pngGarbage = Except.ok (some (1, 2)) ∧
      imageDimensionsGrok pngGarbage = Except.ok (some (1, 2)) := by
  refine ⟨by decide, by decide, rfl, rfl⟩

/-- Claim C7 (amended): `image_dimensions` is total on arbitrary byte
strings.  For every input, including empty, truncated and non-image
data, neither variant ever raises (no `struct.unpack` call ever sees a
short slice, and the JPEG marker loop terminates - the model is
accepted by termination checking); and when no PNG/JPEG/WebP signature
matches, both variants return `None`.  When a signature does match, the
dimension fields are read without validating the rest of the container,
so malformed data with a valid signature can yield an arbitrary pair
rather than `None` (see the counterexample). -/
theorem c7_sniffer_total :
    ∀ data : List Nat,
      exceptIsOk (imageDimensionsOpenai data) = true ∧
      exceptIsOk (imageDimensionsGrok data) = true ∧
      (hasPngSig data = false → hasJpegSig data = false → hasWebpSig data = false →
        imageDimensionsOpenai data = Except.ok none ∧
          imageDimensionsGrok data = Except.ok none) := by
  intro data
  have hpng := pngDimensions_isOk data
  have hjpeg := jpegDimensions_isOk data
  refine ⟨?_, ?_, ?_⟩
  · rw [imageDimensionsOpenai]
    match hp : pngDimensions data with
    | Except.error e => rw [hp] at hpng; simp [exceptIsOk] at hpng
    | Except.ok (some r) => rfl
    | Except.ok none =>
      match hj : jpegDimensions data with
      | Except.error e => rw [hj] at hjpeg; simp [exceptIsOk] at hjpeg
      | Except.ok (some r) => rfl
      | Except.ok none => rfl
  · rw [imageDimensionsGrok]
    match hj : jpegDimensions data with
    | Except.error e => rw [hj] at hjpeg; simp [exceptIsOk] at hjpeg
    | Except.ok (some r) => rfl
    | Except.ok none => exact hpng
  · intro hp hj hw
    rw [hasPngSig, decide_eq_false_iff_not, not_not] at hp
    rw [hasJpegSig, decide_eq_false_iff_not, not_not] at hj
    rw [hasWebpSig, decide_eq_false_iff_not, not_not] at hw
    have hpn : pngDimensions data = Except.ok none := by
      rw [pngDimensions, if_pos hp]
    have hjn : jpegDimensions data = Except.ok none := by
      rw [jpegDimensions, if_pos hj]
    have hwn : webpDimensions data = none := by
      rw [webpDimensions, if_pos hw]
    constructor
    · rw [imageDimensionsOpenai, hpn, hjn, hwn]
    · rw [imageDimensionsGrok, hjn, hpn]

/-- Witness for C7 at the concrete non-image input `[0, 1, 2]`. -/
theorem c7_sniffer_total_witness :
    imageDimensionsOpenai [0, 1, 2] = Except.ok none ∧
      imageDimensionsGrok [0, 1, 2] = Except.ok none :=
  (c7_sniffer_total [0, 1, 2]).2.2 (by decide) (by decide) (by decide)

theorem byteSlice_two (data : List Nat) (i : Nat) (h : i + 2 ≤ data.length) :
    byteSlice data i (i + 2) = [data.getD i 0, data.getD (i + 1) 0] := by
  have h0 : i < data.length := by omega
  have h1 : i + 1 < data.length := by omega
  rw [byteSlice]
  rw [List.drop_eq_getElem_cons h0]
  rw [List.drop_eq_getElem_cons h1]
  rw [List.getD_eq_getElem data 0 h0, List.getD_eq_getElem data 0 h1]
  have ht : i + 2 - i = 2 := by omega
  rw [ht]
  exact rfl

theorem byteSlice_four (data : List Nat) (i : Nat) (h : i + 4 ≤ data.length) :
    byteSlice data i (i + 4) =
      [data.getD i 0, data.getD (i + 1) 0, data.getD (i + 2) 0,
        data.getD (i + 3) 0] := by
  have h0 : i < data.length := by omega
  have h1 : i + 1 < data.length := by omega
  have h2 : i + 2 < data.length := by omega
  have h3 : i + 3 < data.length := by omega
  rw [byteSlice]
  rw [List.drop_eq_getElem_cons h0]
  rw [List.drop_eq_getElem_cons h1]
  rw [List.drop_eq_getElem_cons h2]
  rw [List.drop_eq_getElem_cons h3]
  rw [List.getD_eq_getElem data 0 h0, List.getD_eq_getElem data 0 h1,
    List.getD_eq_getElem data 0 h2, List.getD_eq_getElem data 0 h3]
  have ht : i + 4 - i = 4 := by omega
  rw [ht]
  exact rfl

/-- A 25-byte lossless WebP stream: `RIFF` header, `WEBP` form tag,
`VP8L` chunk tag, and a 4-byte bitfield at offset 21 encoding
width 16, height 513. -/
def webpEx25 : List Nat :=
  [82, 73, 70, 70, 17, 0, 0, 0, 87, 69, 66, 80,
   86, 80, 56, 76, 9, 0, 0, 0, 47, 15, 0, 128, 0]

/-- Claim C8 counterexample: a 25-byte stream that begins with a valid
`RIFF....WEBP` container and carries the `VP8L` tag at offset 12
satisfies the premise of the claim (a `VP8L` stream with at least 25
bytes present), yet `_webp_dimensions` returns `None`, because its
initial guard already requires at least 30 bytes for every chunk type. -/
theorem c8_webp_counterexample :
    webpEx25.length = 25 ∧
      byteSlice webpEx25 0 4 = riffTag ∧
      byteSlice webpEx25 8 12 = webpTag ∧
      byteSlice webpEx25 12 16 = vp8lTag ∧
      webpDimensions webpEx25 = none := by
  decide

/-- Claim C8 (amended): `_webp_dimensions` first requires at least 30
bytes regardless of chunk type (every shorter input, including 25-29
byte `VP8L` streams, yields `None`).  For every byte string of at least
30 bytes beginning with a valid `RIFF....WEBP` container: a `VP8 `
chunk tag yields the two little-endian 16-bit fields at offsets 26 and
28 with the top 2 bits masked off; a `VP8L` tag yields width = (low 14
bits of the little-endian 32-bit field at offset 21) + 1 and height =
(next 14 bits of that field) + 1; any other tag yields `None`. -/
theorem c8_webp_amended :
    ∀ data : List Nat,
      (data.length < 30 → webpDimensions data = none) ∧
      (30 ≤ data.length → byteSlice data 0 4 = riffTag →
        byteSlice data 8 12 = webpTag →
        ((byteSlice data 12 16 = vp8Tag →
          webpDimensions data = some
            ((data.getD 26 0 + 256 * data.getD 27 0) &&& 0x3FFF,
             (data.getD 28 0 + 256 * data.getD 29 0) &&& 0x3FFF)) ∧
         (byteSlice data 12 16 = vp8lTag →
          webpDimensions data = some
            (((data.getD 21 0 + 256 * (data.getD 22 0 + 256 *
                (data.getD 23 0 + 256 * data.getD 24 0))) &&& 0x3FFF) + 1,
             (((data.getD 21 0 + 256 * (data.getD 22 0 + 256 *
                (data.getD 23 0 + 256 * data.getD 24 0))) >>> 14) &&& 0x3FFF) + 1)) ∧
         (byteSlice data 12 16 ≠ vp8Tag → byteSlice data 12 16 ≠ vp8lTag →
          webpDimensions data = none))) := by
  intro data
  constructor
  · intro hshort
    rw [webpDimensions, if_pos (Or.inl hshort)]
  · intro hlen hriff hwebp
    have hguard : ¬ (data.length < 30 ∨ byteSlice data 0 4 ≠ riffTag ∨
        byteSlice data 8 12 ≠ webpTag) := by
      push_neg
      exact ⟨by omega, hriff, hwebp⟩
    refine ⟨?_, ?_, ?_⟩
    · intro htag
      rw [webpDimensions, if_neg hguard, if_pos ⟨htag, hlen⟩]
      rw [show (28 : Nat) = 26 + 2 from rfl, byteSlice_two data 26 (by omega)]
      rw [show (30 : Nat) = 28 + 2 from rfl, byteSlice_two data 28 (by omega)]
      rw [pyIntFromBytesLE, pyIntFromBytesLE]
      simp [List.foldr]
    · intro htag
      have hnotvp8 : ¬ (byteSlice data 12 16 = vp8Tag ∧ 30 ≤ data.length) := by
        intro hc
        rw [htag] at hc
        exact absurd hc.1 (by decide)
      rw [webpDimensions, if_neg hguard, if_neg hnotvp8,
        if_pos ⟨htag, by omega⟩]
      rw [show (25 : Nat) = 21 + 4 from rfl, byteSlice_four data 21 (by omega)]
      rw [pyIntFromBytesLE]
      simp [List.foldr]
    · intro hnv hnvl
      have hnotvp8 : ¬ (byteSlice data 12 16 = vp8Tag ∧ 30 ≤ data.length) := by
        intro hc
        exact hnv hc.1
      have hnotvp8l : ¬ (byteSlice data 12 16 = vp8lTag ∧ 25 ≤ data.length) := by
        intro hc
        exact hnvl hc.1
      rw [webpDimensions, if_neg hguard, if_neg hnotvp8, if_neg hnotvp8l]

/-- A 30-byte lossy WebP stream (`VP8 ` chunk) with width 320 and
height 240 at offsets 26 and 28. -/
def webpEx30 : List Nat :=
  [82, 73, 70, 70, 22, 0, 0, 0, 87, 69, 66, 80,
   86, 80, 56, 32, 10, 0, 0, 0, 0, 0, 0, 0, 0, 0, 64, 1, 240, 0]

/-- Witness for C8 (amended) at a concrete 30-byte lossy stream. -/
theorem c8_webp_witness :
    webpDimensions webpEx30 = some (320, 240) := by
  have h := ((c8_webp_amended webpEx30).2 (by decide) (by decide)
    (by decide)).1 (by decide)
  rw [h]
  decide

/-! ## Standard output contract

Each `print(...)` executed on the success path is recorded as a pair of
the channel it goes to and the printed line.  Every print in the three
scripts passes `file=sys.stderr` except the final `MEDIA:` line; the
text of the stderr diagnostics is irrelevant to the contract and is
carried as parameters, while the channel of each print site and the
content of the `MEDIA:` line follow the source. -/

inductive StdChannel where
  | out
  | err
deriving DecidableEq

/-- The lines a run prints on stdout, in order. -/
def stdoutOf (tr : List (StdChannel × String)) : List String :=
  (tr.filter (fun l => l.1 == StdChannel.out)).map (fun l => l.2)

/-- Tag a batch of diagnostic lines as stderr prints. -/
def errs (l : List String) : List (StdChannel × String) :=
  l.map (fun s => (StdChannel.err, s))

/-- Is the path absolute (POSIX: starts with a slash)? -/
def isAbsolute (s : String) : Bool :=
  match s.data with
  | [] => false
  | c :: _ => c == '/'

/-- `Path(p).resolve()`, modelled as absolute-ization against the
working directory (symlink and `..` normalisation is not modelled; it
does not affect whether the result is absolute). -/
def pyResolve (cwd p : String) : String :=
  if isAbsolute p then p else cwd ++ "/" ++ p

/-- The stderr diagnostics of a successful openai-image-gen run, in
source order (`generate.py` `main` plus the helpers it calls):
deprecation warning, extension warnings, cost estimate, key-resolution
diagnostics, mode/model/size/prompt lines, retry diagnostics of
`api_request`, dimension line, file-size and elapsed lines, token-usage
line, then `saved:` and the optional `metadata:` line. -/
structure OpenaiDiag where
  cwd : String
  rawOutput : String
  deprecation : List String
  extWarns : List String
  costLines : List String
  authLines : List String
  modeLine : String
  modelLine : String
  sizeLine : String
  promptLine : String
  netLines : List String
  dimsLines : List String
  sizeBytesLine : String
  elapsedLine : String
  usageLines : List String
  metaLines : List String

/-- Print trace of a successful openai-image-gen run
(`generate.py` lines 168-336): every print except the final `MEDIA:`
line passes `file=sys.stderr`; the `MEDIA:` line carries
`Path(args.output).resolve()`. -/
def openaiSuccessPrints (a : OpenaiDiag) : List (StdChannel × String) :=
  errs a.deprecation ++ errs a.extWarns ++ errs a.costLines ++
    errs a.authLines ++
    [(StdChannel.err, a.modeLine), (StdChannel.err, a.modelLine),
     (StdChannel.err, a.sizeLine), (StdChannel.err, a.promptLine)] ++
    errs a.netLines ++ errs a.dimsLines ++
    [(StdChannel.err, a.sizeBytesLine), (StdChannel.err, a.elapsedLine)] ++
    errs a.usageLines ++
    [(StdChannel.err, "saved: " ++ pyResolve a.cwd a.rawOutput)] ++
    errs a.metaLines ++
    [(StdChannel.out, "MEDIA: " ++ pyResolve a.cwd a.rawOutput)]

/-- The stderr diagnostics of a successful grok-imagine run, in source
order. -/
structure GrokDiag where
  cwd : String
  rawOutput : String
  authLines : List String
  modelLine : String
  promptLine : String
  netLines : List String
  dimsLines : List String
  sizeLine : String
  elapsedLine : String
  metaLines : List String

/-- Print trace of a successful grok-imagine run (`generate.py` lines
225-294): every print except the final `MEDIA:` line passes
`file=sys.stderr`; the `MEDIA:` line carries
`Path(args.output).resolve()`. -/
def grokSuccessPrints (a : GrokDiag) : List (StdChannel × String) :=
  errs a.authLines ++
    [(StdChannel.err, a.modelLine), (StdChannel.err, a.promptLine)] ++
    errs a.netLines ++ errs a.dimsLines ++
    [(StdChannel.err, a.sizeLine), (StdChannel.err, a.elapsedLine),
     (StdChannel.err, "saved: " ++ pyResolve a.cwd a.rawOutput)] ++
    errs a.metaLines ++
    [(StdChannel.out, "MEDIA: " ++ pyResolve a.cwd a.rawOutput)]

/-- `hy3_image.py` `main` line 227: the printed local output path is
`Path(args.out)` exactly as given when `--out` is supplied (it is never
resolved), and `/tmp/hy3-{cmd}-{ts}.png` otherwise. -/
def hy3OutLocal (outArg : Option String) (cmd ts : String) : String :=
  match outArg with
  | some p => p
  | none => "/tmp/hy3-" ++ cmd ++ "-" ++ ts ++ ".png"

/-- Print trace of a successful hy3 run (`hy3_image.py` `main`): the
only Python-level print is the final `MEDIA:` line (subprocess output is
outside the model). -/
def hy3SuccessPrints (outArg : Option String) (cmd ts : String) :
    List (StdChannel × String) :=
  [(StdChannel.out, "MEDIA: " ++ hy3OutLocal outArg cmd ts)]

theorem stdoutOf_err_cons (s : String) (rest : List (StdChannel × String)) :
    stdoutOf ((StdChannel.err, s) :: rest) = stdoutOf rest := rfl

theorem stdoutOf_errs_append (l : List String) (rest : List (StdChannel × String)) :
    stdoutOf (errs l ++ rest) = stdoutOf rest := by
  induction l with
  | nil => rfl
  | cons s t ih =>
    have hshape : errs (s :: t) ++ rest = (StdChannel.err, s) :: (errs t ++ rest) := rfl
    rw [hshape, stdoutOf_err_cons]
    exact ih

theorem isAbsolute_resolve (cwd p : String) (h : isAbsolute cwd = true) :
    isAbsolute (pyResolve cwd p) = true := by
  rw [pyResolve]
  by_cases hp : isAbsolute p = true
  · rw [if_pos hp]
    exact hp
  · rw [if_neg hp]
    cases hc : cwd.data with
    | nil =>
      rw [isAbsolute, hc] at h
      exact absurd h (by decide)
    | cons c rest =>
      rw [isAbsolute, hc] at h
      have hdata : (cwd ++ "/" ++ p).data = c :: (rest ++ '/' :: p.data) := by
        rw [String.data_append, String.data_append, hc]
        simp
      rw [isAbsolute, hdata]
      exact h

/-- Claim C5 counterexample: a successful hy3 run started with a
relative `--out foo.png` prints exactly one stdout line, but the path in
it is `foo.png` as given - not an absolute path.  This refutes the
claim that all three scripts print the absolute local path. -/
theorem c5_stdout_counterexample :
    stdoutOf (hy3SuccessPrints (some "foo.png") "generate" "20260101-000000") =
        ["MEDIA: foo.png"] ∧
      isAbsolute "foo.png" = false := by
  constructor
  · rfl
  · decide

/-- Claim C5 (amended): on every successful run of each script, standard
output consists of exactly one line, `MEDIA: ` followed by the local
path of the saved artifact, and all other diagnostics go to stderr.
The OpenAI and Grok scripts print the resolved output path, which is
absolute whenever the working directory is; the hy3 script prints the
`--out` argument verbatim (absolute only if given absolute) and an
absolute `/tmp` default when `--out` is omitted. -/
theorem c5_stdout_amended :
    ∀ (a : OpenaiDiag) (g : GrokDiag) (o : Option String) (cmd ts : String),
      stdoutOf (openaiSuccessPrints a) =
        ["MEDIA: " ++ pyResolve a.cwd a.rawOutput] ∧
      stdoutOf (grokSuccessPrints g) =
        ["MEDIA: " ++ pyResolve g.cwd g.rawOutput] ∧
      (isAbsolute a.cwd = true →
        isAbsolute (pyResolve a.cwd a.rawOutput) = true) ∧
      (isAbsolute g.cwd = true →
        isAbsolute (pyResolve g.cwd g.rawOutput) = true) ∧
      stdoutOf (hy3SuccessPrints o cmd ts) = ["MEDIA: " ++ hy3OutLocal o cmd ts] ∧
      (o = none → isAbsolute (hy3OutLocal o cmd ts) = true) := by
  intro a g o cmd ts
  refine ⟨?_, ?_, isAbsolute_resolve a.cwd a.rawOutput,
    isAbsolute_resolve g.cwd g.rawOutput, rfl, ?_⟩
  · rw [openaiSuccessPrints]
    repeat rw [List.append_assoc]
    rw [stdoutOf_errs_append, stdoutOf_errs_append, stdoutOf_errs_append,
      stdoutOf_errs_append]
    rw [List.cons_append, stdoutOf_err_cons, List.cons_append,
      stdoutOf_err_cons, List.cons_append, stdoutOf_err_cons,
      List.cons_append, stdoutOf_err_cons, List.nil_append]
    rw [stdoutOf_errs_append, stdoutOf_errs_append]
    rw [List.cons_append, stdoutOf_err_cons, List.cons_append,
      stdoutOf_err_cons, List.nil_append]
    rw [stdoutOf_errs_append]
    rw [List.cons_append, stdoutOf_err_cons, List.nil_append]
    rw [stdoutOf_errs_append]
    rfl
  · rw [grokSuccessPrints]
    repeat rw [List.append_assoc]
    rw [stdoutOf_errs_append]
    rw [List.cons_append, stdoutOf_err_cons, List.cons_append,
      stdoutOf_err_cons, List.nil_append]
    rw [stdoutOf_errs_append, stdoutOf_errs_append]
    rw [List.cons_append, stdoutOf_err_cons, List.cons_append,
      stdoutOf_err_cons, List.cons_append, stdoutOf_err_cons,
      List.nil_append]
    rw [stdoutOf_errs_append]
    rfl
  · intro ho
    rw [ho, hy3OutLocal, isAbsolute]
    rw [String.data_append, String.data_append, String.data_append,
      String.data_append]
    have hd : "/tmp/hy3-".data = ([] : List Char) ++ ('/' :: "tmp/hy3-".data) := rfl
    rw [hd]
    rw [List.nil_append, List.cons_append, List.cons_append, List.cons_append,
      List.cons_append]
    rfl

/-- Witness for C5 (amended) at concrete run parameters. -/
theorem c5_stdout_witness :
    isAbsolute (pyResolve "/w" "o.png") = true ∧
      isAbsolute (hy3OutLocal none "generate" "20260101") = true := by
  have h := c5_stdout_amended
    ⟨"/w", "o.png", [], [], [], [], "", "", "", "", [], [], "", "", [], []⟩
    ⟨"/w", "o.png", [], "", "", [], [], "", "", []⟩
    none "generate" "20260101"
  exact ⟨h.2.2.1 (by decide), h.2.2.2.2.2 rfl⟩

/-! ## Metadata sidecar persistence

`write_metadata` (openai-image-gen `generate.py` lines 102-135,
grok-imagine `generate.py` lines 173-196) runs
`meta_path.parent.mkdir(parents=True, exist_ok=True)`, then
`tmp = meta_path.with_suffix(".tmp")`, `tmp.write_text(...)`,
`tmp.rename(meta_path)`.  `pathlib.PurePath.with_suffix` does not append
to the file name: it strips the existing suffix of the final path
component first.  The suffix of a name is the part from its last dot,
provided that dot is neither the first nor past the last character of
the name. -/

/-- Split a path into (directory part including the trailing slash,
final component). -/
def splitName (p : String) : List Char × List Char :=
  let rname := p.data.reverse.takeWhile (fun c => c ≠ '/')
  (p.data.take (p.data.length - rname.length), rname.reverse)

/-- Index at which the pathlib suffix of a file name starts: the last
dot, provided it is not at position 0 and not the final character
(`.bashrc` and `name.` have no suffix). -/
def pySuffixStart (name : List Char) : Option Nat :=
  let rafter := name.reverse.takeWhile (fun c => c ≠ '.')
  if rafter.length = name.length then none
  else if 0 < name.length - 1 - rafter.length ∧ 0 < rafter.length then
    some (name.length - 1 - rafter.length)
  else none

/-- `with_suffix` on the final path component: replace the existing
suffix when there is one, append otherwise. -/
def pyWithSuffixName (name suf : List Char) : List Char :=
  match pySuffixStart name with
  | some i => name.take i ++ suf
  | none => name ++ suf

/-- `PurePath(p).with_suffix(suf)`. -/
def pyWithSuffix (p suf : String) : String :=
  let dn := splitName p
  String.mk (dn.1 ++ pyWithSuffixName dn.2 suf.data)

/-- Filesystem trace of `write_metadata`: mkdir of the parent, write of
`meta_path.with_suffix(".tmp")`, rename of that temp path onto the
sidecar destination. -/
def writeMetadataTrace (metaPath : String) : List FsOp :=
  [FsOp.mkdir (dirPart metaPath),
   FsOp.write (pyWithSuffix metaPath ".tmp"),
   FsOp.rename (pyWithSuffix metaPath ".tmp") metaPath]

/-- Claim C6 counterexample: for the sidecar destination
`/d/meta.json`, the temp file is `/d/meta.tmp` - `with_suffix(".tmp")`
replaces the `.json` extension - and not the appended
`/d/meta.json.tmp` the claim states; no write to the appended path
occurs in the trace. -/
theorem c6_sidecar_counterexample :
    pyWithSuffix "/d/meta.json" ".tmp" = "/d/meta.tmp" ∧
      ("/d/meta.tmp" : String) ≠ "/d/meta.json.tmp" ∧
      FsOp.write "/d/meta.tmp" ∈ writeMetadataTrace "/d/meta.json" ∧
      FsOp.write "/d/meta.json.tmp" ∉ writeMetadataTrace "/d/meta.json" := by
  refine ⟨by decide, by decide, by decide, by decide⟩

theorem takeWhile_append_stop (p : Char → Bool) (l1 : List Char) (c : Char)
    (l2 : List Char) (h1 : ∀ x ∈ l1, p x = true) (hc : p c = false) :
    (l1 ++ c :: l2).takeWhile p = l1 := by
  induction l1 with
  | nil => simp [List.takeWhile_cons, hc]
  | cons a t ih =>
    have ha : p a = true := h1 a (List.mem_cons_self a t)
    simp [List.takeWhile_cons, ha,
      ih (fun x hx => h1 x (List.mem_cons_of_mem a hx))]

/-- Claim C6 (amended): the sidecar uses the same
write-then-rename shape as the artifact - the JSON is written to a
single temp path and that temp file is renamed onto the sidecar
destination - but the temp path is `meta_path.with_suffix(".tmp")`:
the destination path with its final extension replaced by `.tmp`.  It
equals the appended path `destination + ".tmp"` exactly when the final
path component has no extension. -/
theorem c6_sidecar_amended :
    ∀ p : String,
      writeMetadataTrace p =
        [FsOp.mkdir (dirPart p), FsOp.write (pyWithSuffix p ".tmp"),
          FsOp.rename (pyWithSuffix p ".tmp") p] ∧
      (∀ (d n : List Char), (∀ x ∈ n, x ≠ '/') → pySuffixStart n = none →
        pyWithSuffix (String.mk (d ++ '/' :: n)) ".tmp" =
          String.mk (d ++ '/' :: n) ++ ".tmp") := by
  intro p
  refine ⟨rfl, ?_⟩
  intro d n hn hsuf
  have hrev : (d ++ '/' :: n).reverse = n.reverse ++ '/' :: d.reverse := by
    rw [List.reverse_append, List.reverse_cons]
    simp [List.append_assoc]
  have htw : (n.reverse ++ '/' :: d.reverse).takeWhile
      (fun c => (c ≠ '/' : Bool)) = n.reverse := by
    apply takeWhile_append_stop
    · intro x hx
      rw [List.mem_reverse] at hx
      simp [hn x hx]
    · simp
  have hlen : (d ++ '/' :: n).length - n.reverse.length = (d ++ ['/']).length := by
    simp [List.length_append, List.length_reverse]
    omega
  have hcat : d ++ '/' :: n = (d ++ ['/']) ++ n := by simp
  have htake : (d ++ '/' :: n).take ((d ++ '/' :: n).length - n.reverse.length) =
      d ++ ['/'] := by
    rw [hlen, hcat, List.take_left]
  have hsplit : splitName (String.mk (d ++ '/' :: n)) = (d ++ ['/'], n) := by
    simp only [splitName]
    rw [hrev, htw, htake, List.reverse_reverse]
  simp only [pyWithSuffix]
  rw [hsplit]
  simp only [pyWithSuffixName, hsuf]
  apply String.ext
  rw [String.data_append]
  show (d ++ ['/']) ++ (n ++ ".tmp".data) = (d ++ '/' :: n) ++ ".tmp".data
  simp [List.append_assoc]

/-- Witness for C6 (amended) at a suffix-free name. -/
theorem c6_sidecar_witness :
    pyWithSuffix (String.mk (['a'] ++ '/' :: ['b'])) ".tmp" =
      String.mk (['a'] ++ '/' :: ['b']) ++ ".tmp" :=
  (c6_sidecar_amended "m").2 ['a'] ['b'] (by decide) (by decide)

/-! ## Model capability table and parameter validation

`common.py` lines 55-143.  Validation error messages are abstracted to
tags (which check fired, with the offending value); the list structure
and the order of the checks follow `validate_params`. -/

/-- One entry of `MODEL_CAPS`. -/
structure Caps where
  sizes : List String
  qualities : List String
  formats : List String
  backgrounds : List String
  supports_style : Bool
  styles : List String := []
deriving DecidableEq

/-- `MODEL_CAPS` (common.py lines 57-100). -/
def MODEL_CAPS : List (String × Caps) :=
  [("gpt-image-1.5",
    { sizes := ["1024x1024", "1024x1536", "1536x1024"],
      qualities := ["low", "medium", "high"],
      formats := ["png", "jpeg", "webp"],
      backgrounds := ["transparent", "opaque", "auto"],
      supports_style := false }),
   ("gpt-image-1",
    { sizes := ["1024x1024", "1024x1536", "1536x1024"],
      qualities := ["low", "medium", "high"],
      formats := ["png", "jpeg", "webp"],
      backgrounds := ["transparent", "opaque", "auto"],
      supports_style := false }),
   ("gpt-image-1-mini",
    { sizes := ["1024x1024", "1024x1536", "1536x1024"],
      qualities := ["low", "medium", "high"],
      formats := ["png", "jpeg", "webp"],
      backgrounds := ["transparent", "opaque", "auto"],
      supports_style := false }),
   ("dall-e-3",
    { sizes := ["1024x1024", "1792x1024", "1024x1792"],
      qualities := ["standard", "hd"],
      formats := ["png"],
      backgrounds := [],
      supports_style := true,
      styles := ["vivid", "natural"] }),
   ("dall-e-2",
    { sizes := ["256x256", "512x512", "1024x1024"],
      qualities := ["standard"],
      formats := ["png"],
      backgrounds := [],
      supports_style := false })]

/-- `GPT_IMAGE_MODELS` membership (common.py line 55, `is_gpt_image`). -/
def is_gpt_image (model : String) : Bool :=
  model == "gpt-image-1.5" || model == "gpt-image-1" || model == "gpt-image-1-mini"

/-- Validation error tags, one per `errors.append` site of
`validate_params`. -/
inductive VError where
  | unknownModel (m : String)
  | badSize (s : String)
  | badQuality (q : String)
  | badFormat (f : String)
  | backgroundUnsupported
  | badBackground (b : String)
  | styleUnsupported
  | badStyle (s : String)
deriving DecidableEq

/-- `validate_params` (common.py lines 109-143): looks the model up in
`MODEL_CAPS` and accumulates errors for size, quality, format,
background and style in source order. -/
def validate_params (model size quality fmt background style : String) :
    List VError :=
  match (MODEL_CAPS.filter (fun e => e.1 == model)).head? with
  | none => [VError.unknownModel model]
  | some entry =>
    let caps := entry.2
    (if caps.sizes.contains size then [] else [VError.badSize size]) ++
    (if caps.qualities.contains quality then [] else [VError.badQuality quality]) ++
    (if fmt ≠ "" ∧ caps.formats ≠ [] ∧ ¬ caps.formats.contains fmt
      then [VError.badFormat fmt] else []) ++
    (if background ≠ "" ∧ caps.backgrounds = [] then [VError.backgroundUnsupported]
     else if background ≠ "" ∧ ¬ caps.backgrounds.contains background
      then [VError.badBackground background] else []) ++
    (if style ≠ "" ∧ caps.supports_style = false then [VError.styleUnsupported]
     else if style ≠ "" ∧ ¬ caps.styles.contains style
      then [VError.badStyle style] else [])

/-- The CLI defaults of `build_parser` (openai-image-gen `generate.py`
lines 142-165): size `1024x1024`, quality `high`, format `png`,
background `auto`, style empty. -/
structure OpenaiDefaults where
  size : String := "1024x1024"
  quality : String := "high"
  fmt : String := "png"
  background : String := "auto"
  style : String := ""

def openaiDefaults : OpenaiDefaults := {}

/-- The pre-network part of `main` (openai-image-gen `generate.py`
lines 168-196): the directory check, the background clearing for
non-GPT models, and the validation gate.  Returns the exit code it
returns early with (if any) paired with the number of network requests
performed up to that point; when validation passes, `main` goes on to
exactly one generation request (modelled only as the count turning
positive). -/
def openaiEarly (outputIsDir : Bool)
    (model size quality fmt background style : String) : Option Nat × Nat :=
  if outputIsDir then (some 4, 0)
  else
    let background' := if is_gpt_image model then background else ""
    let errors := validate_params model size quality fmt background' style
    if errors.isEmpty then (none, 1) else (some 4, 0)

/-- Claim C9: invoking the OpenAI generate CLI with `--model dall-e-3`
and the default quality terminates with exit code 4 before any network
call: the default quality is `high`, `dall-e-3` allows exactly
`standard` and `hd`, so `validate_params` returns exactly the
bad-quality error and `main` returns 4 with zero network requests -
`dall-e-3` is unusable without an explicit `--quality` flag. -/
theorem c9_dalle3_default_quality :
    openaiDefaults.quality = "high" ∧
      (MODEL_CAPS.filter (fun e => e.1 == "dall-e-3")).head? =
        some ("dall-e-3",
          { sizes := ["1024x1024", "1792x1024", "1024x1792"],
            qualities := ["standard", "hd"],
            formats := ["png"],
            backgrounds := [],
            supports_style := true,
            styles := ["vivid", "natural"] }) ∧
      validate_params "dall-e-3" openaiDefaults.size openaiDefaults.quality
          openaiDefaults.fmt "" openaiDefaults.style =
        [VError.badQuality "high"] ∧
      openaiEarly false "dall-e-3" openaiDefaults.size openaiDefaults.quality
          openaiDefaults.fmt openaiDefaults.background openaiDefaults.style =
        (some 4, 0) := by
  refine ⟨rfl, ?_, ?_, ?_⟩
  · decide
  · decide
  · decide
